import Mathlib

/-!
Shallow embedding of `wepay/signer-python` (`src/wepay/signer/__init__.py`).

The module defines a single class `Signer` with a constructor and the methods
`sign`, `generate_query_string_params`, `__create_string_to_sign`,
`__create_context`, `__get_signing_salt` and `__create_scope`.

Modelling conventions:
* Python strings are Lean `String`; byte strings are `List Nat` (one entry per
  byte).  `str.lower()` / `str.upper()` are `String.toLower` / `String.toUpper`
  (the payloads of interest are ASCII, where these agree with Python).
* Python dictionaries are association lists `List (String × PyVal)` that keep
  insertion order, exactly as Python 3 dicts do; `dict.copy()` is the identity
  on the pure value, `dict.update` / item assignment replace the value of an
  existing key in place and append fresh keys, `dict.pop` removes the key.
* Scalar and composite payload values are the inductive `PyVal`;
  `str(v)` (equivalently `"".format(v)` with a bare placeholder) is `pyFormat`.
* The hash algorithms of `hashlib` and the `hmac` module are external library
  code, not part of this repository; they enter the embedding as parameters:
  an unkeyed digest `D : HashAlgo → List Nat → List Nat` and a keyed digest
  `HM : HashAlgo → List Nat → List Nat → List Nat` (key, message).  All
  theorems hold for every choice of these parameters.
* `hexdigest` over a byte list is the concrete lowercase-hex rendering, as
  produced by `hashlib`/`hmac` `.hexdigest()`.
* `six.u` is the identity on Python 3 strings; `six.b(s)` is `s.encode("latin-1")`,
  modelled by `latin1` (codepoint per byte, faithful for codepoints ≤ 0xFF);
  `s.encode("utf-8")` is `utf8`.
* Methods that a caller could observe mutating their argument are embedded in
  state-passing style, returning the result together with the caller's
  dictionary as it stands after the call.
-/

namespace WePaySigner

/-- Python values that can appear in a payload dict: scalars (`str`, `int`,
`bool`) and, to probe the non-scalar cases, lists. -/
inductive PyVal where
  | str (s : String)
  | int (n : Int)
  | bool (b : Bool)
  | list (elts : List PyVal)

mutual

/-- Python `repr(v)`: strings are quoted, ints and bools as printed, lists
bracketed with comma-separated element reprs (faithful for quote-free ASCII
strings). -/
def pyRepr : PyVal → String
  | .str s => "'" ++ s ++ "'"
  | .int n => toString n
  | .bool b => if b then "True" else "False"
  | .list elts => "[" ++ String.intercalate ", " (pyReprList elts) ++ "]"

/-- `repr` of each element of a Python list. -/
def pyReprList : List PyVal → List String
  | [] => []
  | v :: vs => pyRepr v :: pyReprList vs

end

/-- Python `str(v)`, which is what a bare-placeholder `format` call produces:
a string renders as itself, every other value as its `repr`. -/
def pyFormat : PyVal → String
  | .str s => s
  | v => pyRepr v

/-- A Python 3 dict with string keys, as an insertion-ordered association
list. -/
abbrev Dict := List (String × PyVal)

/-- Item assignment / one-key `dict.update`: replace the value of an existing
key in place (keeping its position), append a fresh key at the end. -/
def dictSet (d : Dict) (k : String) (v : PyVal) : Dict :=
  if d.any (fun kv => kv.1 == k) then
    d.map (fun kv => if kv.1 == k then (k, v) else kv)
  else
    d ++ [(k, v)]

/-- `dict.pop(k, None)`: remove the key `k` (all occurrences; a genuine dict
has at most one). -/
def dictPop (d : Dict) (k : String) : Dict :=
  d.filter (fun kv => kv.1 != k)

/-- `six.viewkeys(d)` as a list, in dict order. -/
def dictKeys (d : Dict) : List String :=
  d.map (·.1)

/-- `d[k]` as an `Option`: the value at the (unique) matching key. -/
def dictGet (d : Dict) (k : String) : Option PyVal :=
  match d with
  | [] => none
  | kv :: tl => if kv.1 == k then some kv.2 else dictGet tl k

/-- Lexicographic (codepoint) comparison of character lists: the order Python
uses to compare strings.  `charListLe as bs` is `as <= bs`. -/
def charListLe : List Char → List Char → Bool
  | [], _ => true
  | _ :: _, [] => false
  | a :: as, b :: bs =>
    if a.toNat < b.toNat then true
    else if b.toNat < a.toNat then false
    else charListLe as bs

/-- Python `<=` on strings: lexicographic by codepoint. -/
def pyLe (a b : String) : Prop :=
  charListLe a.data b.data = true

instance : DecidableRel pyLe :=
  fun a b => inferInstanceAs (Decidable (charListLe a.data b.data = true))

/-- Python `str.lower()` (faithful for ASCII, where only `A`-`Z` move). -/
def pyLower (s : String) : String :=
  String.mk (s.data.map Char.toLower)

/-- Python `str.upper()` (faithful for ASCII, where only `a`-`z` move). -/
def pyUpper (s : String) : String :=
  String.mk (s.data.map Char.toUpper)

/-- Python `list.sort()` on strings: ascending lexicographic (codepoint)
order, stable. -/
def pySort (xs : List String) : List String :=
  List.insertionSort pyLe xs

/-- One lowercase hex digit. -/
def hexDigit (n : Nat) : Char :=
  if n < 10 then Char.ofNat (48 + n) else Char.ofNat (87 + n)

/-- A byte as two lowercase hex digits. -/
def hexByte (b : Nat) : String :=
  String.mk [hexDigit (b / 16), hexDigit (b % 16)]

/-- `.hexdigest()` of a byte string: lowercase hexadecimal, two digits per
byte. -/
def hexdigest (bs : List Nat) : String :=
  String.join (bs.map hexByte)

/-- UTF-8 encoding of one character. -/
def utf8Char (c : Char) : List Nat :=
  let n := c.toNat
  if n < 128 then [n]
  else if n < 2048 then
    [192 + n / 64, 128 + n % 64]
  else if n < 65536 then
    [224 + n / 4096, 128 + n / 64 % 64, 128 + n % 64]
  else
    [240 + n / 262144, 128 + n / 4096 % 64, 128 + n / 64 % 64, 128 + n % 64]

/-- `s.encode("utf-8")` (also `six.u(s).encode("utf-8")`: `six.u` is the
identity on Python 3). -/
def utf8 (s : String) : List Nat :=
  (s.data.map utf8Char).flatten

/-- `six.b(s)`, i.e. `s.encode("latin-1")` on Python 3: one byte per
codepoint (faithful for codepoints ≤ 0xFF, and equal to `utf8` on ASCII). -/
def latin1 (s : String) : List Nat :=
  s.data.map (·.toNat)

/-- A named hash algorithm, standing for the `hashlib` constructors that can
be passed as the `hash_algo` option.  The digest itself is a parameter of the
signing functions. -/
inductive HashAlgo where
  | sha512
  | sha384
  | sha256
  | sha1
  | md5
deriving DecidableEq, Repr

/-- `hashlib.<algo>().name`. -/
def HashAlgo.pyname : HashAlgo → String
  | .sha512 => "sha512"
  | .sha384 => "sha384"
  | .sha256 => "sha256"
  | .sha1 => "sha1"
  | .md5 => "md5"

/-- The `options` dict accepted by `Signer.__init__`: each recognised key is
either absent (`none`) or present with a value. -/
structure SignerOptions where
  self_key : Option String := none
  hash_algo : Option HashAlgo := none
deriving DecidableEq, Repr

/-- The state stored by a constructed `Signer`. -/
structure Signer where
  client_id : String
  client_secret : String
  self_key : String
  hash_algo : HashAlgo
deriving DecidableEq, Repr

/-- The spec names two error classes; the source module defines neither and
contains no `raise`, so in the embedding they occur only on the `error` side
of `Except`-valued variants, which the source never reaches. -/
inductive SignerError where
  | configurationError
  | payloadError
deriving DecidableEq, Repr

namespace Signer

/-- `Signer.__init__`: stringify `client_id` and `client_secret` via bare
`format`, then `merged_options = options.copy()` followed by
`merged_options.update(dict with self_key = WePay, hash_algo = hashlib.sha512)`.
Note the `update` runs with the defaults as its argument, so it overwrites
both keys unconditionally; the stored fields are then read from
`merged_options`. -/
def init (client_id client_secret : PyVal) (options : SignerOptions) : Signer :=
  let merged_options : SignerOptions :=
    { options with self_key := some "WePay", hash_algo := some HashAlgo.sha512 }
  { client_id := pyFormat client_id
    client_secret := pyFormat client_secret
    self_key := merged_options.self_key.getD "WePay"
    hash_algo := merged_options.hash_algo.getD HashAlgo.sha512 }

/-- `Signer.__init__` with its error channel made explicit: the constructor
body contains no `raise` and no call that can fail on `PyVal` inputs, so it
always returns `ok`. -/
def initE (client_id client_secret : PyVal) (options : SignerOptions) :
    Except SignerError Signer :=
  Except.ok (init client_id client_secret options)

/-- `Signer.__create_scope`. -/
def createScope (s : Signer) : String :=
  s.self_key ++ "/" ++ s.client_id ++ "/signer"

/-- `Signer.__create_context`: for each key a line
`lowercase(format(key)) ++ "=" ++ lowercase(format(value)) ++ "\n"`, the
rendered lines sorted in place, concatenated, then a newline and the
semicolon-join of the independently sorted original keys. -/
def createContext (payload : Dict) : String :=
  let canonical_payload :=
    payload.map (fun kv => pyLower kv.1 ++ "=" ++ pyLower (pyFormat kv.2) ++ "\n")
  let canonical_sorted := pySort canonical_payload
  let sorted_keys := pySort (dictKeys payload)
  let signed_headers_string := String.intercalate ";" sorted_keys
  String.join canonical_sorted ++ "\n" ++ signed_headers_string

/-- `Signer.__create_context` with its error channel made explicit: the body
stringifies every value with a bare-placeholder `format`, which succeeds on
every Python value, so no `PayloadError` (or any exception) is ever raised. -/
def createContextE (payload : Dict) : Except SignerError String :=
  Except.ok (createContext payload)

/-- `Signer.__create_string_to_sign`: hash `scope` and `context` with the
unkeyed configured algorithm (`hashlib.new(self.hash_algo().name, ...)`),
render both as lowercase hex, and format the five-line template
`SIGNER-HMAC-<ALGO>`, `self_key`, `client_id`, scope hash, context hash
joined by single newlines.  `D` is the unkeyed digest of each algorithm. -/
def createStringToSign (D : HashAlgo → List Nat → List Nat) (s : Signer)
    (scope context : String) : String :=
  let scope_hash := hexdigest (D s.hash_algo (utf8 scope))
  let context_hash := hexdigest (D s.hash_algo (utf8 context))
  "SIGNER-HMAC-" ++ pyUpper s.hash_algo.pyname ++ "\n" ++ s.self_key ++ "\n"
    ++ s.client_id ++ "\n" ++ scope_hash ++ "\n" ++ context_hash

/-- `Signer.__get_signing_salt`: the 3-round `hmac.new(...).digest()` chain.
`HM a key msg` is the raw HMAC digest under algorithm `a`.  The first key is
`six.b(client_secret)` (latin-1 bytes); the messages are UTF-8. -/
def getSigningSalt (HM : HashAlgo → List Nat → List Nat → List Nat)
    (s : Signer) : List Nat :=
  let self_key_sign := HM s.hash_algo (latin1 s.client_secret) (utf8 s.self_key)
  let client_id_sign := HM s.hash_algo self_key_sign (utf8 s.client_id)
  let signer_sign := HM s.hash_algo client_id_sign (utf8 "signer")
  signer_sign

/-- `Signer.sign`, in state-passing style.  The body copies `payload`
(`merged_payload = payload.copy()`) and updates the copy with the instance's
`client_id` and `client_secret` (the dict literal lists `client_id` first);
the caller's dict is returned unchanged as the second component, since only
the copy is mutated.  The result is the lowercase-hex HMAC of the
string-to-sign under the signing salt. -/
def signCall (D : HashAlgo → List Nat → List Nat)
    (HM : HashAlgo → List Nat → List Nat → List Nat)
    (s : Signer) (payload : Dict) : String × Dict :=
  let merged_payload :=
    dictSet (dictSet payload "client_id" (PyVal.str s.client_id))
      "client_secret" (PyVal.str s.client_secret)
  let scope := createScope s
  let context := createContext merged_payload
  let s2s := createStringToSign D s scope context
  let signing_key := getSigningSalt HM s
  let signature := hexdigest (HM s.hash_algo signing_key (utf8 s2s))
  (signature, payload)

/-- The string returned by `Signer.sign`. -/
def sign (D : HashAlgo → List Nat → List Nat)
    (HM : HashAlgo → List Nat → List Nat → List Nat)
    (s : Signer) (payload : Dict) : String :=
  (signCall D HM s payload).1

/-- `Signer.generate_query_string_params`, in state-passing style: the body
pops `client_secret` from the caller's dict itself, signs the popped dict,
then assigns `client_id` and `stoken` into the caller's dict, sorts its keys
and joins `key=value` pairs with `&`.  The second component is the caller's
dict as it stands after the call. -/
def generateQueryStringParams (D : HashAlgo → List Nat → List Nat)
    (HM : HashAlgo → List Nat → List Nat → List Nat)
    (s : Signer) (payload : Dict) : String × Dict :=
  let payload1 := dictPop payload "client_secret"
  let signed_token := sign D HM s payload1
  let payload2 := dictSet payload1 "client_id" (PyVal.str s.client_id)
  let payload3 := dictSet payload2 "stoken" (PyVal.str signed_token)
  let payload_keys := pySort (dictKeys payload3)
  let qsa := payload_keys.map
    (fun k => k ++ "=" ++ pyFormat ((dictGet payload3 k).getD (PyVal.str "")))
  (String.intercalate "&" qsa, payload3)

end Signer

/-! Order-theoretic facts about the string comparison used by `pySort`. -/

theorem charListLe_total : ∀ as bs : List Char,
    charListLe as bs = true ∨ charListLe bs as = true
  | [], _ => Or.inl rfl
  | _ :: _, [] => Or.inr rfl
  | a :: as, b :: bs => by
    by_cases hab : a.toNat < b.toNat
    · left
      simp [charListLe, hab]
    · by_cases hba : b.toNat < a.toNat
      · right
        simp [charListLe, hba]
      · rcases charListLe_total as bs with h | h
        · left
          simp [charListLe, hab, hba, h]
        · right
          simp [charListLe, hba, hab, h]

theorem charListLe_trans : ∀ as bs cs : List Char,
    charListLe as bs = true → charListLe bs cs = true → charListLe as cs = true
  | [], _, _ => fun _ _ => rfl
  | _ :: _, [], _ => fun h _ => by simp [charListLe] at h
  | _ :: _, _ :: _, [] => fun _ h => by simp [charListLe] at h
  | a :: as, b :: bs, c :: cs => fun h1 h2 => by
    simp only [charListLe] at h1 h2 ⊢
    by_cases hab : a.toNat < b.toNat
    · by_cases hbc : b.toNat < c.toNat
      · simp [show a.toNat < c.toNat from Nat.lt_trans hab hbc]
      · by_cases hcb : c.toNat < b.toNat
        · simp [hbc, hcb] at h2
        · have hbc' : b.toNat = c.toNat := Nat.le_antisymm (Nat.le_of_not_lt hcb) (Nat.le_of_not_lt hbc)
          simp [show a.toNat < c.toNat from hbc' ▸ hab]
    · by_cases hba : b.toNat < a.toNat
      · simp [hab, hba] at h1
      · have hab' : a.toNat = b.toNat := Nat.le_antisymm (Nat.le_of_not_lt hba) (Nat.le_of_not_lt hab)
        simp [hab, hba] at h1
        by_cases hbc : b.toNat < c.toNat
        · simp [show a.toNat < c.toNat from hab' ▸ hbc]
        · by_cases hcb : c.toNat < b.toNat
          · simp [hbc, hcb] at h2
          · have hbc' : b.toNat = c.toNat := Nat.le_antisymm (Nat.le_of_not_lt hcb) (Nat.le_of_not_lt hbc)
            simp [hbc, hcb] at h2
            have hac : ¬ a.toNat < c.toNat := by omega
            have hca : ¬ c.toNat < a.toNat := by omega
            simp [hac, hca]
            exact charListLe_trans as bs cs h1 h2

instance : IsTotal String pyLe :=
  ⟨fun a b => charListLe_total a.data b.data⟩

instance : IsTrans String pyLe :=
  ⟨fun a b c => charListLe_trans a.data b.data c.data⟩

theorem pySort_sorted (xs : List String) : (pySort xs).Sorted pyLe :=
  List.sorted_insertionSort pyLe xs

theorem pySort_perm (xs : List String) : (pySort xs).Perm xs :=
  List.perm_insertionSort pyLe xs

/-! Facts about the dict operations. -/

theorem dictGet_map_replace_self (d : Dict) (k : String) (v : PyVal)
    (h : d.any (fun kv => kv.1 == k) = true) :
    dictGet (d.map (fun kv => if kv.1 == k then (k, v) else kv)) k = some v := by
  induction d with
  | nil => simp at h
  | cons a tl ih =>
    by_cases hka : (a.1 == k) = true
    · simp [dictGet, hka]
    · have htl : tl.any (fun kv => kv.1 == k) = true := by
        simpa [List.any_cons, hka] using h
      simpa [dictGet, hka] using ih htl

theorem dictGet_append_single_self (d : Dict) (k : String) (v : PyVal)
    (h : d.any (fun kv => kv.1 == k) = false) :
    dictGet (d ++ [(k, v)]) k = some v := by
  induction d with
  | nil => simp [dictGet]
  | cons a tl ih =>
    have hka : (a.1 == k) = false := by
      cases hpa : (a.1 == k) with
      | true => simp [List.any_cons, hpa] at h
      | false => rfl
    have htl : tl.any (fun kv => kv.1 == k) = false := by
      cases hta : tl.any (fun kv => kv.1 == k) with
      | true => simp [List.any_cons, hta] at h
      | false => rfl
    simpa [dictGet, hka] using ih htl

theorem dictGet_dictSet_self (d : Dict) (k : String) (v : PyVal) :
    dictGet (dictSet d k v) k = some v := by
  unfold dictSet
  by_cases h : d.any (fun kv => kv.1 == k) = true
  · rw [if_pos h]
    exact dictGet_map_replace_self d k v h
  · rw [if_neg h]
    exact dictGet_append_single_self d k v (Bool.eq_false_iff.mpr h)

theorem dictGet_map_replace_ne (d : Dict) {k k2 : String} (v : PyVal)
    (h : (k2 == k) = false) :
    dictGet (d.map (fun kv => if kv.1 == k2 then (k2, v) else kv)) k = dictGet d k := by
  induction d with
  | nil => simp [dictGet]
  | cons a tl ih =>
    by_cases hak2 : (a.1 == k2) = true
    · have hak : (a.1 == k) = false := by
        have h1 : a.1 = k2 := by simpa using hak2
        have h2 : ¬ k2 = k := by simpa using h
        simp [h1, h2]
      simpa [dictGet, hak2, hak, h] using ih
    · by_cases hak : (a.1 == k) = true
      · simp [dictGet, hak2, hak]
      · simpa [dictGet, hak2, hak] using ih

theorem dictGet_append_single_ne (d : Dict) {k k2 : String} (v : PyVal)
    (h : (k2 == k) = false) :
    dictGet (d ++ [(k2, v)]) k = dictGet d k := by
  induction d with
  | nil => simp [dictGet, h]
  | cons a tl ih =>
    by_cases hak : (a.1 == k) = true
    · simp [dictGet, hak]
    · simpa [dictGet, hak] using ih

theorem dictGet_dictSet_ne (d : Dict) {k k2 : String} (v : PyVal) (h : (k2 == k) = false) :
    dictGet (dictSet d k2 v) k = dictGet d k := by
  unfold dictSet
  by_cases hany : d.any (fun kv => kv.1 == k2) = true
  · rw [if_pos hany]
    exact dictGet_map_replace_ne d v h
  · rw [if_neg hany]
    exact dictGet_append_single_ne d v h

theorem mem_dictKeys_dictSet {x : String} (d : Dict) (k : String) (v : PyVal)
    (hx : x ∈ dictKeys (dictSet d k v)) : x ∈ dictKeys d ∨ x = k := by
  unfold dictSet at hx
  by_cases hany : d.any (fun kv => kv.1 == k) = true
  · rw [if_pos hany] at hx
    simp only [dictKeys, List.map_map, List.mem_map] at hx
    rcases hx with ⟨kv, hkv, hxeq⟩
    by_cases hk : (kv.1 == k) = true
    · right
      simp [Function.comp, hk] at hxeq
      exact hxeq.symm
    · left
      simp [Function.comp, hk] at hxeq
      exact List.mem_map.mpr ⟨kv, hkv, hxeq⟩
  · rw [if_neg hany] at hx
    simp only [dictKeys, List.map_append, List.mem_append, List.map_cons, List.map_nil,
      List.mem_cons, List.not_mem_nil, or_false] at hx
    rcases hx with h1 | h2
    · exact Or.inl h1
    · exact Or.inr h2

theorem not_mem_dictKeys_dictPop (d : Dict) (k : String) :
    k ∉ dictKeys (dictPop d k) := by
  intro hk
  simp only [dictKeys, dictPop, List.mem_map] at hk
  rcases hk with ⟨kv, hkv, hxeq⟩
  have := (List.mem_filter.mp hkv).2
  rw [hxeq] at this
  simp at this

/-- The line rendered for one payload entry by `__create_context`. -/
def renderedLine (kv : String × PyVal) : String :=
  pyLower kv.1 ++ "=" ++ pyLower (pyFormat kv.2) ++ "\n"

/-! The claims. -/

/-- Claim C1.  The claim states that a supplied `self_key` option `s` and a
supplied supported `hash_algo` option `h` are stored, the defaults being used
only when the option is absent.  The code calls `merged_options.update` WITH
the defaults as argument, so the defaults overwrite every supplied option:
the stored configuration is `self_key = "WePay"`, `hash_algo = sha512` for
every input, in particular at the failing input
`options = dict(self_key = "Acme", hash_algo = sha256)`. -/
theorem c1_supplied_options_are_ignored (cid csec : PyVal) (opts : SignerOptions) :
    (Signer.init cid csec opts).self_key = "WePay" ∧
    (Signer.init cid csec opts).hash_algo = HashAlgo.sha512 ∧
    Signer.init (PyVal.str "id") (PyVal.str "secret")
        { self_key := some "Acme", hash_algo := some HashAlgo.sha256 } =
      { client_id := "id", client_secret := "secret",
        self_key := "WePay", hash_algo := HashAlgo.sha512 } :=
  ⟨rfl, rfl, rfl⟩

/-- A concrete signer used to evaluate the mutation bug of claim C2. -/
def sgnA : Signer := Signer.init (PyVal.str "my_id") (PyVal.str "my_secret") {}

/-- The concrete payload of claim C2's failing input. -/
def payloadA : Dict := [("client_secret", PyVal.str "my_secret"), ("token", PyVal.str "tok")]

/-- Claim C2.  The claim states the caller's map is unchanged after
`generate_query_string_params`.  The code pops `client_secret` from, and
writes `client_id` and `stoken` into, the caller's dict itself (no copy is
taken).  After the call on `payloadA` the caller's dict has keys
`token, client_id, stoken` — not its original entries — for every choice of
hash implementation. -/
theorem c2_caller_map_is_mutated (D : HashAlgo → List Nat → List Nat)
    (HM : HashAlgo → List Nat → List Nat → List Nat) :
    dictKeys (Signer.generateQueryStringParams D HM sgnA payloadA).2 =
      ["token", "client_id", "stoken"] ∧
    (Signer.generateQueryStringParams D HM sgnA payloadA).2 ≠ payloadA := by
  refine ⟨rfl, fun hc => ?_⟩
  have hk := congrArg dictKeys hc
  rw [show dictKeys (Signer.generateQueryStringParams D HM sgnA payloadA).2 =
      ["token", "client_id", "stoken"] from rfl] at hk
  exact absurd hk (by decide)

/-- Claim C3, counterexample.  Constructing with empty `client_id` and empty
`client_secret` does not fail: there is no validation and no
`ConfigurationError` anywhere in the module, and the constructor returns a
usable instance storing the empty strings. -/
theorem c3_counterexample_empty_identity_accepted :
    Signer.initE (PyVal.str "") (PyVal.str "") {} =
      Except.ok { client_id := "", client_secret := "", self_key := "WePay",
                  hash_algo := HashAlgo.sha512 } := rfl

/-- Claim C3, amended.  Construction never fails: for every `client_id`,
`client_secret` and options it returns a signer storing the stringified
identity arguments and the default `self_key` and hash algorithm. -/
theorem c3_construction_never_fails (cid csec : PyVal) (opts : SignerOptions) :
    Signer.initE cid csec opts =
      Except.ok { client_id := pyFormat cid, client_secret := pyFormat csec,
                  self_key := "WePay", hash_algo := HashAlgo.sha512 } := rfl

/-- Claim C4, counterexample.  A payload with a nested (list) value does not
raise a `PayloadError`: `__create_context` stringifies the list like any
scalar and returns the full context string. -/
theorem c4_counterexample_nested_value_accepted :
    Signer.createContextE [("a", PyVal.list [PyVal.str "b"])] =
      Except.ok "a=['b']\n\na" := rfl

/-- Claim C4, amended.  `create_context` never raises, for scalar and
non-scalar payload values alike: every value is rendered by its string
representation and the full context string is returned. -/
theorem c4_create_context_never_raises (payload : Dict) :
    Signer.createContextE payload = Except.ok (Signer.createContext payload) ∧
    ∀ e : SignerError, Signer.createContextE payload ≠ Except.error e :=
  ⟨rfl, fun e hc => by simp [Signer.createContextE] at hc⟩

/-- Claim C5.  `create_context` concatenates the rendered lines
`lowercase(key)=lowercase(stringified value)\n`, sorted lexicographically as
whole lines, then appends one newline plus the semicolon-join of the
original-case keys, themselves sorted independently. -/
theorem c5_create_context_canonical_form (payload : Dict) :
    ∃ ls ks : List String,
      Signer.createContext payload =
        String.join ls ++ "\n" ++ String.intercalate ";" ks ∧
      ls.Perm (payload.map renderedLine) ∧ ls.Sorted pyLe ∧
      ks.Perm (dictKeys payload) ∧ ks.Sorted pyLe :=
  ⟨pySort (payload.map renderedLine), pySort (dictKeys payload),
    rfl, pySort_perm _, pySort_sorted _, pySort_perm _, pySort_sorted _⟩

/-- Claim C6.  `sign(p)` is the lowercase-hex HMAC, under the derived signing
key, of the UTF-8 bytes of the string-to-sign built from the scope and the
context of a clone of `p` into which the instance's `client_id` and
`client_secret` were injected (overwriting caller-supplied values for those
keys); the caller's `p` is returned unchanged. -/
theorem c6_sign_formula (D : HashAlgo → List Nat → List Nat)
    (HM : HashAlgo → List Nat → List Nat → List Nat)
    (s : Signer) (payload : Dict) :
    Signer.signCall D HM s payload =
      (hexdigest (HM s.hash_algo (Signer.getSigningSalt HM s)
        (utf8 (Signer.createStringToSign D s (Signer.createScope s)
          (Signer.createContext
            (dictSet (dictSet payload "client_id" (PyVal.str s.client_id))
              "client_secret" (PyVal.str s.client_secret)))))),
       payload) ∧
    dictGet (dictSet (dictSet payload "client_id" (PyVal.str s.client_id))
        "client_secret" (PyVal.str s.client_secret)) "client_id" =
      some (PyVal.str s.client_id) ∧
    dictGet (dictSet (dictSet payload "client_id" (PyVal.str s.client_id))
        "client_secret" (PyVal.str s.client_secret)) "client_secret" =
      some (PyVal.str s.client_secret) := by
  refine ⟨rfl, ?_, ?_⟩
  · rw [dictGet_dictSet_ne _ _ (by decide)]
    exact dictGet_dictSet_self _ _ _
  · exact dictGet_dictSet_self _ _ _

/-- Claim C7.  The signing salt is exactly the 3-round HMAC chain
`HM(HM(HM(secret_bytes, self_key), client_id), "signer")` under the
configured algorithm, returned as raw digest bytes. -/
theorem c7_signing_salt_is_three_round_chain
    (HM : HashAlgo → List Nat → List Nat → List Nat) (s : Signer) :
    Signer.getSigningSalt HM s =
      HM s.hash_algo
        (HM s.hash_algo
          (HM s.hash_algo (latin1 s.client_secret) (utf8 s.self_key))
          (utf8 s.client_id))
        (utf8 "signer") := rfl

/-- Claim C8.  The string-to-sign is exactly five lines — the algorithm
banner, `self_key`, `client_id`, and the lowercase-hex unkeyed hashes of
scope and context — joined by exactly four newline separators with no
trailing newline. -/
theorem c8_string_to_sign_five_lines (D : HashAlgo → List Nat → List Nat)
    (s : Signer) (scope context : String) :
    Signer.createStringToSign D s scope context =
      String.intercalate "\n"
        ["SIGNER-HMAC-" ++ pyUpper s.hash_algo.pyname, s.self_key, s.client_id,
         hexdigest (D s.hash_algo (utf8 scope)),
         hexdigest (D s.hash_algo (utf8 context))] := rfl

/-- Claim C9.  The query string never contains the key `client_secret`; its
pairs are rendered `key=value` joined by ampersands with the keys in ascending
lexicographic order; it carries `client_id` equal to the instance's
`client_id` and `stoken` equal to the signature of the
`client_secret`-stripped payload. -/
theorem c9_query_string_shape (D : HashAlgo → List Nat → List Nat)
    (HM : HashAlgo → List Nat → List Nat → List Nat)
    (s : Signer) (payload : Dict) :
    ∃ ks : List String,
      ks.Perm (dictKeys (Signer.generateQueryStringParams D HM s payload).2) ∧
      ks.Sorted pyLe ∧
      "client_secret" ∉ dictKeys (Signer.generateQueryStringParams D HM s payload).2 ∧
      (Signer.generateQueryStringParams D HM s payload).1 =
        String.intercalate "&" (ks.map (fun k => k ++ "=" ++
          pyFormat ((dictGet (Signer.generateQueryStringParams D HM s payload).2 k).getD
            (PyVal.str "")))) ∧
      dictGet (Signer.generateQueryStringParams D HM s payload).2 "client_id" =
        some (PyVal.str s.client_id) ∧
      dictGet (Signer.generateQueryStringParams D HM s payload).2 "stoken" =
        some (PyVal.str (Signer.sign D HM s (dictPop payload "client_secret"))) := by
  refine ⟨pySort (dictKeys (Signer.generateQueryStringParams D HM s payload).2),
    pySort_perm _, pySort_sorted _, ?_, rfl, ?_, ?_⟩
  · intro hmem
    have hmem2 : "client_secret" ∈ dictKeys
        (dictSet (dictSet (dictPop payload "client_secret") "client_id"
          (PyVal.str s.client_id)) "stoken"
          (PyVal.str (Signer.sign D HM s (dictPop payload "client_secret")))) := hmem
    rcases mem_dictKeys_dictSet _ _ _ hmem2 with h1 | h1
    · rcases mem_dictKeys_dictSet _ _ _ h1 with h2 | h2
      · exact not_mem_dictKeys_dictPop payload "client_secret" h2
      · exact absurd h2 (by decide)
    · exact absurd h1 (by decide)
  · exact (dictGet_dictSet_ne _ _ (by decide)).trans (dictGet_dictSet_self _ _ _)
  · exact dictGet_dictSet_self _ _ _

/-- Claim C10.  Construction accepts any scalar (indeed, any value) for the
identity arguments and stores their string renderings, never failing; a
signer built from the integer `1234` is the very same state as one built from
the string `"1234"`, so `sign` and `generate_query_string_params` agree on
every payload. -/
theorem c10_numeric_client_id_equivalence (csec : PyVal) (opts : SignerOptions)
    (D : HashAlgo → List Nat → List Nat)
    (HM : HashAlgo → List Nat → List Nat → List Nat) (payload : Dict) :
    Signer.initE (PyVal.int 1234) csec opts =
      Except.ok (Signer.init (PyVal.int 1234) csec opts) ∧
    Signer.init (PyVal.int 1234) csec opts = Signer.init (PyVal.str "1234") csec opts ∧
    Signer.signCall D HM (Signer.init (PyVal.int 1234) csec opts) payload =
      Signer.signCall D HM (Signer.init (PyVal.str "1234") csec opts) payload ∧
    Signer.generateQueryStringParams D HM (Signer.init (PyVal.int 1234) csec opts) payload =
      Signer.generateQueryStringParams D HM (Signer.init (PyVal.str "1234") csec opts) payload := by
  have hinit : Signer.init (PyVal.int 1234) csec opts =
      Signer.init (PyVal.str "1234") csec opts := by
    unfold Signer.init
    rw [show pyFormat (PyVal.int 1234) = "1234" from rfl]
    rfl
  exact ⟨rfl, hinit, by rw [hinit], by rw [hinit]⟩

end WePaySigner
